import Mathlib

/-!
Verification of the tool-dispatch core of the `03-tools` repository.

The repository's `src/index.js` declares two pure arithmetic tools (`addition`
computing `a + b` and `multiplication` computing `a * b`) over a shared zod
schema (`calculationSchema`: two required numeric parameters `a` and `b`),
binds them to a chat model in the order `[addition, multiplication]`, keeps a
name-to-tool mapping (`toolMapping`), and loops over the model's tool calls,
invoking the matching tool for each.

The specification generalizes this script into a reusable tool-dispatch core
made of a Schema Validator, a Tool Registry and a Call Dispatcher. The tools,
their schema and the registration order below are embedded from the source;
the generalized validator, registry and dispatcher contracts are modelled from
the specification, since the source contains only the hardcoded instance of
them (the raw loop and the zod library call).

JavaScript numbers are embedded as integers: every concrete value appearing in
the source and its documentation is a small integer, and none of the claims
depends on non-integral arithmetic.
-/

namespace ToolDispatch

/-- Semantic types a parameter can declare (spec data model, ParameterSpec). -/
inductive SemType where
  | number
  | string
  | boolean
deriving DecidableEq

/-- Runtime values exchanged with tools: the JavaScript primitives the script
uses (numbers embedded as integers, strings, booleans). -/
inductive Value where
  | num (n : Int)
  | str (s : String)
  | boolean (b : Bool)
deriving DecidableEq

/-- The semantic type of a runtime value. -/
def typeOf : Value → SemType
  | .num _ => .number
  | .str _ => .string
  | .boolean _ => .boolean

/-- A declared parameter: name, semantic type, description, required flag
(spec data model, ParameterSpec). -/
structure ParameterSpec where
  name : String
  type : SemType
  description : String
  required : Bool
deriving DecidableEq

/-- The argument schema shared by both tools (src/index.js, `calculationSchema`):
two numeric parameters `a` ("first number") and `b` ("second number"), both
required, as zod object fields are required by default. -/
def calculationSchema : List ParameterSpec :=
  [⟨"a", .number, "first number", true⟩,
   ⟨"b", .number, "second number", true⟩]

/-- A named tool: name, description, parameter specs, and its executable unit
mapping validated arguments to a result value or a failure detail
(spec data model, ToolDefinition). -/
structure ToolDefinition where
  name : String
  description : String
  params : List ParameterSpec
  exec : List (String × Value) → Except String Value

/-- Look up a numeric argument by name in an argument mapping. -/
def getNum (args : List (String × Value)) (key : String) : Option Int :=
  match args.lookup key with
  | some (.num n) => some n
  | _ => none

/-- The addition tool (src/index.js, `additionTool`): destructures arguments
`a` and `b` and returns `a + b`. -/
def additionTool : ToolDefinition :=
  ⟨"addition", "Add numbers.", calculationSchema,
   fun args =>
     match getNum args "a", getNum args "b" with
     | some a, some b => .ok (.num (a + b))
     | _, _ => .error "invalid arguments"⟩

/-- The multiplication tool (src/index.js, `multiplicationTool`): destructures
arguments `a` and `b` and returns `a * b`. -/
def multiplicationTool : ToolDefinition :=
  ⟨"multiplication", "Multiply numbers.", calculationSchema,
   fun args =>
     match getNum args "a", getNum args "b" with
     | some a, some b => .ok (.num (a * b))
     | _, _ => .error "invalid arguments"⟩

/-- Modelled from the spec: the Schema Validator's error taxonomy
(spec 4.1) — the generalized validator is not implemented in src/, whose
script delegates validation to the external zod library. -/
inductive ValidationError where
  | MissingArgument (field : String)
  | TypeMismatch (field : String) (expected actual : SemType)
  | UnknownArgument (field : String)
deriving DecidableEq

/-- First argument key not declared by any parameter of the spec, if any. -/
def findUnknownKey (spec : List ParameterSpec) (args : List (String × Value)) :
    Option String :=
  (args.find? (fun kv => spec.all (fun p => ! (p.name == kv.1)))).map (fun kv => kv.1)

/-- First required parameter whose key is absent from the arguments, if any. -/
def findMissingField (spec : List ParameterSpec) (args : List (String × Value)) :
    Option String :=
  (spec.find? (fun p => p.required && (args.lookup p.name).isNone)).map (fun p => p.name)

/-- First parameter whose supplied value has the wrong semantic type, if any,
with the expected and actual types. -/
def findTypeError (spec : List ParameterSpec) (args : List (String × Value)) :
    Option (String × SemType × SemType) :=
  spec.findSome? (fun p =>
    match args.lookup p.name with
    | some v => if typeOf v == p.type then none else some (p.name, p.type, typeOf v)
    | none => none)

/-- Modelled from the spec: the Schema Validator (spec 4.1), absent from src/
(the script delegates to zod). Rejects unknown argument keys, missing required
parameters, and type mismatches; otherwise returns the validated arguments. -/
def validate (spec : List ParameterSpec) (args : List (String × Value)) :
    Except ValidationError (List (String × Value)) :=
  match findUnknownKey spec args with
  | some f => .error (.UnknownArgument f)
  | none =>
    match findMissingField spec args with
    | some f => .error (.MissingArgument f)
    | none =>
      match findTypeError spec args with
      | some fea => .error (.TypeMismatch fea.1 fea.2.1 fea.2.2)
      | none => .ok args

/-- A registry of named tools, in registration order (spec 4.2). -/
structure Registry where
  tools : List ToolDefinition

/-- Modelled from the spec: registration failure taxonomy (spec 4.2 and 7),
absent from src/ (the script builds its `toolMapping` literal directly). -/
inductive RegistrationError where
  | DuplicateName
deriving DecidableEq

/-- Modelled from the spec: `Registry.register` (spec 4.2), absent from src/.
Appends the tool if its name is unused; fails fast with `DuplicateName`
otherwise, leaving the registry unchanged. -/
def Registry.register (r : Registry) (d : ToolDefinition) :
    Except RegistrationError Registry :=
  if r.tools.any (fun t => t.name == d.name) then .error .DuplicateName
  else .ok ⟨r.tools ++ [d]⟩

/-- Modelled from the spec: `Registry.resolve` (spec 4.2) — the generalized
form of the script's `toolMapping[toolCall.name]` lookup. -/
def Registry.resolve (r : Registry) (n : String) : Option ToolDefinition :=
  r.tools.find? (fun t => t.name == n)

/-- A serializable projection of a ToolDefinition, as exposed to the model
gateway (spec data model, ToolCatalogEntry). -/
structure ToolCatalogEntry where
  name : String
  description : String
  params : List ParameterSpec
deriving DecidableEq

/-- Modelled from the spec: `Registry.catalog` (spec 4.2) — the ordered tool
listing presented to the model gateway, as the script's `bindTools` list is. -/
def Registry.catalog (r : Registry) : List ToolCatalogEntry :=
  r.tools.map (fun t => ⟨t.name, t.description, t.params⟩)

/-- The empty registry, prior to any registration. -/
def emptyRegistry : Registry := ⟨[]⟩

/-- The registry of the script (src/index.js, `toolMapping`, matching the
`bindTools` list order): addition, then multiplication. -/
def demoRegistry : Registry := ⟨[additionTool, multiplicationTool]⟩

/-- An invocation requested by the model gateway: tool name plus raw argument
mapping (spec data model, InvocationRequest; the script's `toolCall`). -/
structure InvocationRequest where
  name : String
  args : List (String × Value)
deriving DecidableEq

/-- Modelled from the spec: the failure taxonomy of a single invocation
(spec 4.3 and 7), absent from src/ (the script's loop has no failure path). -/
inductive FailureKind where
  | UnknownTool
  | InvalidArguments (detail : ValidationError)
  | ExecutionError (detail : String)
deriving DecidableEq

/-- Exactly one of a success value or a failure reason (spec data model,
InvocationResult). -/
inductive Outcome where
  | success (value : Value)
  | failure (kind : FailureKind)
deriving DecidableEq

/-- The result of one invocation: the originating request plus its outcome
(spec data model, InvocationResult). -/
structure InvocationResult where
  request : InvocationRequest
  outcome : Outcome
deriving DecidableEq

/-- Modelled from the spec: the Call Dispatcher's per-request algorithm
(spec 4.3), the generalized form of the script's loop body — resolve the name,
validate the arguments, invoke the executable unit, converting every failure
into data rather than a raised fault. -/
def dispatchOne (r : Registry) (req : InvocationRequest) : InvocationResult :=
  match r.resolve req.name with
  | none => ⟨req, .failure .UnknownTool⟩
  | some t =>
    match validate t.params req.args with
    | .error e => ⟨req, .failure (.InvalidArguments e)⟩
    | .ok va =>
      match t.exec va with
      | .ok v => ⟨req, .success v⟩
      | .error d => ⟨req, .failure (.ExecutionError d)⟩

/-- Modelled from the spec: `dispatch` (spec 4.3), the generalized form of the
script's `for (let toolCall of llmOutput.tool_calls)` invocation loop —
processes every request independently, in order. -/
def dispatch (r : Registry) (reqs : List InvocationRequest) : List InvocationResult :=
  reqs.map (dispatchOne r)

/-- A tool whose executable unit always fails, used to exercise the
dispatcher's ExecutionError containment path (spec 4.3 step 3). -/
def faultyTool : ToolDefinition :=
  ⟨"faulty", "Always fails.", [], fun _ => .error "boom"⟩

/-- A registry holding only the always-failing tool. -/
def faultyRegistry : Registry := ⟨[faultyTool]⟩

/-- The dispatcher never changes which request a result belongs to. -/
theorem dispatchOne_request (r : Registry) (req : InvocationRequest) :
    (dispatchOne r req).request = req := by
  unfold dispatchOne
  split
  · rfl
  · split
    · rfl
    · split <;> rfl

/-- Claim C1: dispatch of N requests yields exactly N results, carrying the
originating requests in the same order, for every registry and request list —
in particular when some names resolve to no tool; no request is dropped. -/
theorem dispatch_count_and_order (r : Registry) (reqs : List InvocationRequest) :
    (dispatch r reqs).length = reqs.length ∧
    (dispatch r reqs).map InvocationResult.request = reqs := by
  constructor
  · simp [dispatch]
  · induction reqs with
    | nil => rfl
    | cons q qs ih =>
      simp only [dispatch, List.map_cons] at ih ⊢
      rw [dispatchOne_request, ih]

/-- Claim C2: a request whose name resolves to no registered tool yields a
failure result of kind UnknownTool, in place, while every request before and
after it is dispatched as usual. -/
theorem dispatch_unknown_tool (r : Registry) (pre post : List InvocationRequest)
    (req : InvocationRequest) (h : r.resolve req.name = none) :
    dispatch r (pre ++ req :: post) =
      dispatch r pre ++ ⟨req, .failure .UnknownTool⟩ :: dispatch r post := by
  simp [dispatch, dispatchOne, h]

/-- Witness for C2: dispatching the unknown name scenario on the script's
registry yields exactly one UnknownTool failure. -/
theorem dispatch_unknown_tool_witness :
    dispatch demoRegistry [⟨"unknownTool", []⟩] =
      [⟨⟨"unknownTool", []⟩, .failure .UnknownTool⟩] := by
  have h : demoRegistry.resolve "unknownTool" = none := rfl
  simpa using dispatch_unknown_tool demoRegistry [] [] ⟨"unknownTool", []⟩ h

/-- Claim C3: when a resolved tool's executable unit fails on validated
arguments, the dispatcher contains the failure as an ExecutionError result in
place, and every request before and after it is still dispatched. -/
theorem dispatch_execution_error_contained (r : Registry) (t : ToolDefinition)
    (va : List (String × Value)) (d : String) (req : InvocationRequest)
    (pre post : List InvocationRequest)
    (h1 : r.resolve req.name = some t)
    (h2 : validate t.params req.args = .ok va)
    (h3 : t.exec va = .error d) :
    dispatch r (pre ++ req :: post) =
      dispatch r pre ++ ⟨req, .failure (.ExecutionError d)⟩ :: dispatch r post := by
  simp [dispatch, dispatchOne, h1, h2, h3]

/-- Witness for C3: a batch of two calls to the always-failing tool produces
two ExecutionError results; the first failure does not abort the second. -/
theorem dispatch_execution_error_contained_witness :
    dispatch faultyRegistry [⟨"faulty", []⟩, ⟨"faulty", []⟩] =
      [⟨⟨"faulty", []⟩, .failure (.ExecutionError "boom")⟩,
       ⟨⟨"faulty", []⟩, .failure (.ExecutionError "boom")⟩] := by
  have h := dispatch_execution_error_contained faultyRegistry faultyTool [] "boom"
    ⟨"faulty", []⟩ [] [⟨"faulty", []⟩] rfl rfl rfl
  simpa [dispatch, dispatchOne] using h

/-- Claim C4: strict validation — any argument mapping holding a key declared
by no parameter is rejected with an UnknownArgument error, and any mapping the
validator accepts contains only declared keys and all required ones. -/
theorem strict_validation :
    (∀ spec args, (∃ kv ∈ args, ∀ p ∈ spec, p.name ≠ kv.1) →
      ∃ f, validate spec args = .error (.UnknownArgument f)) ∧
    (∀ spec args va, validate spec args = .ok va →
      (∀ kv ∈ va, ∃ p ∈ spec, p.name = kv.1) ∧
      (∀ p ∈ spec, p.required = true → ∃ kv ∈ va, kv.1 = p.name)) := by
  constructor
  · intro spec args hex
    obtain ⟨kv, hmem, hall⟩ := hex
    have hsome : (args.find? (fun kv => spec.all (fun p => ! (p.name == kv.1)))).isSome := by
      rw [List.find?_isSome]
      refine ⟨kv, hmem, ?_⟩
      simp only [List.all_eq_true, Bool.not_eq_true', beq_eq_false_iff_ne]
      exact hall
    obtain ⟨kv', hkv'⟩ := Option.isSome_iff_exists.mp hsome
    refine ⟨kv'.1, ?_⟩
    unfold validate findUnknownKey
    rw [hkv']
    rfl
  · intro spec args va h
    unfold validate at h
    split at h
    · cases h
    · next hunk =>
      split at h
      · cases h
      · next hmiss =>
        split at h
        · cases h
        · cases h
          constructor
          · intro kv hkv
            have hfind : args.find? (fun kv => spec.all (fun p => ! (p.name == kv.1))) = none := by
              unfold findUnknownKey at hunk
              exact Option.map_eq_none'.mp hunk
            have := List.find?_eq_none.mp hfind kv hkv
            simp only [List.all_eq_true, Bool.not_eq_true', beq_eq_false_iff_ne] at this
            push_neg at this
            obtain ⟨p, hp, hpeq⟩ := this
            exact ⟨p, hp, hpeq⟩
          · intro p hp hreq
            have hfind : spec.find? (fun p => p.required && (args.lookup p.name).isNone) = none := by
              unfold findMissingField at hmiss
              exact Option.map_eq_none'.mp hmiss
            have hnot := List.find?_eq_none.mp hfind p hp
            rw [hreq, Bool.true_and, Bool.not_eq_true, Option.isNone_eq_false_iff,
              Option.isSome_iff_exists] at hnot
            obtain ⟨v, hv⟩ := hnot
            obtain ⟨l₁, l₂, rfl, -⟩ := List.lookup_eq_some_iff.mp hv
            exact ⟨(p.name, v), by simp, rfl⟩

/-- Witness for C4: the schema of the script rejects a mapping holding the
undeclared key c, and accepts the mapping with exactly the keys a and b, which
are both declared. -/
theorem strict_validation_witness :
    (∃ f, validate calculationSchema [("a", Value.num 1), ("c", Value.num 3)] =
      .error (.UnknownArgument f)) ∧
    (∀ kv ∈ [("a", Value.num 1), ("b", Value.num 2)],
      ∃ p ∈ calculationSchema, p.name = kv.1) := by
  constructor
  · exact strict_validation.1 calculationSchema _ (by decide)
  · exact (strict_validation.2 calculationSchema
      [("a", Value.num 1), ("b", Value.num 2)] _ rfl).1

/-- Claim C5: dispatching an addition request whose argument a holds the
string x instead of a number yields a failure naming field a with a
TypeMismatch between the declared number and the actual string. -/
theorem dispatch_type_mismatch :
    dispatch demoRegistry [⟨"addition", [("a", .str "x"), ("b", .num 1)]⟩] =
      [⟨⟨"addition", [("a", .str "x"), ("b", .num 1)]⟩,
        .failure (.InvalidArguments (.TypeMismatch "a" .number .string))⟩] := by
  decide

/-- Claim C6: the scenario of the script — addition of 30 and 12 followed by
multiplication of 21 and 2 — yields the successes 42 and 42, in order. -/
theorem dispatch_demo_scenario :
    dispatch demoRegistry
      [⟨"addition", [("a", .num 30), ("b", .num 12)]⟩,
       ⟨"multiplication", [("a", .num 21), ("b", .num 2)]⟩] =
      [⟨⟨"addition", [("a", .num 30), ("b", .num 12)]⟩, .success (.num 42)⟩,
       ⟨⟨"multiplication", [("a", .num 21), ("b", .num 2)]⟩, .success (.num 42)⟩] := by
  decide

/-- Claim C7: after a successful registration, registering any tool under the
same name fails with DuplicateName before any invocation can occur, and the
first registration stays intact — resolving the name still returns it. -/
theorem register_duplicate_fails (r r' : Registry) (d d' : ToolDefinition)
    (h1 : r.register d = .ok r') (h2 : d'.name = d.name) :
    r'.register d' = .error .DuplicateName ∧ r'.resolve d.name = some d := by
  unfold Registry.register at h1
  split at h1
  · cases h1
  · next hany =>
    cases h1
    have hnone : r.tools.find? (fun t => t.name == d.name) = none := by
      rw [List.find?_eq_none]
      intro t ht hbeq
      exact hany (List.any_eq_true.mpr ⟨t, ht, hbeq⟩)
    constructor
    · have hcond : (r.tools ++ [d]).any (fun t => t.name == d'.name) = true := by
        simp [h2]
      simp [Registry.register, hcond]
    · unfold Registry.resolve
      simp only [List.find?_append, hnone, Option.none_or]
      simp [List.find?_cons]

/-- Witness for C7: registering the addition tool twice from the empty
registry fails on the second call, and addition stays resolvable. -/
theorem register_duplicate_fails_witness :
    Registry.register ⟨[additionTool]⟩ additionTool = .error .DuplicateName ∧
    Registry.resolve ⟨[additionTool]⟩ "addition" = some additionTool := by
  have h := register_duplicate_fails emptyRegistry ⟨[additionTool]⟩
    additionTool additionTool rfl rfl
  exact ⟨h.1, h.2⟩

/-- Claim C8: dispatching the same request twice in sequence yields the same
result twice; in particular a successful result is reproduced identically,
the shipped tools being pure functions of their arguments. -/
theorem dispatch_idempotent (r : Registry) (req : InvocationRequest) (v : Value)
    (h : dispatchOne r req = ⟨req, .success v⟩) :
    dispatch r [req, req] = [⟨req, .success v⟩, ⟨req, .success v⟩] := by
  simp [dispatch, h]

/-- Witness for C8: the addition request of the script, dispatched twice,
succeeds with 42 both times. -/
theorem dispatch_idempotent_witness :
    dispatch demoRegistry
      [⟨"addition", [("a", .num 30), ("b", .num 12)]⟩,
       ⟨"addition", [("a", .num 30), ("b", .num 12)]⟩] =
      [⟨⟨"addition", [("a", .num 30), ("b", .num 12)]⟩, .success (.num 42)⟩,
       ⟨⟨"addition", [("a", .num 30), ("b", .num 12)]⟩, .success (.num 42)⟩] :=
  dispatch_idempotent demoRegistry ⟨"addition", [("a", .num 30), ("b", .num 12)]⟩
    (.num 42) (by decide)

/-- Claim C9: registering addition then multiplication yields a catalog equal
to the addition entry followed by the multiplication entry — registration
order — and this is the catalog of the script's registry. -/
theorem catalog_registration_order :
    ∃ r1 r2 : Registry,
      emptyRegistry.register additionTool = .ok r1 ∧
      r1.register multiplicationTool = .ok r2 ∧
      r2.catalog =
        [⟨"addition", "Add numbers.", calculationSchema⟩,
         ⟨"multiplication", "Multiply numbers.", calculationSchema⟩] ∧
      r2.catalog = demoRegistry.catalog := by
  exact ⟨⟨[additionTool]⟩, ⟨[additionTool, multiplicationTool]⟩, rfl, rfl, rfl, rfl⟩

/-- Claim C10: both shipped tools are commutative in their two arguments —
swapping the values bound to a and b leaves each tool's result unchanged. -/
theorem tools_commutative (x y : Int) :
    additionTool.exec [("a", .num x), ("b", .num y)] =
      additionTool.exec [("a", .num y), ("b", .num x)] ∧
    multiplicationTool.exec [("a", .num x), ("b", .num y)] =
      multiplicationTool.exec [("a", .num y), ("b", .num x)] := by
  constructor
  · show (Except.ok (Value.num (x + y)) : Except String Value) = .ok (.num (y + x))
    rw [Int.add_comm]
  · show (Except.ok (Value.num (x * y)) : Except String Value) = .ok (.num (y * x))
    rw [Int.mul_comm]

end ToolDispatch
